import Mathlib

/-!
# Verification of the GutenOCR-Test pipeline

A shallow embedding, in Lean 4, of the result-handling logic of the
GutenOCR-Test repository (`gutenocr_engine.py`, `file_processor.py`,
`docling_gutenocr_combined.py`), together with theorems settling the
behavioural claims about prompt resolution, error handling, file
discovery, result merging, statistics and result serialization.

External effects (the vision-language model, the image loader, the
Docling document converter, wall-clock timestamps) are modelled as
explicit parameters: an environment of functions returning
`Except String _`, where `.error e` stands for a raised Python
exception whose `str()` is `e`.  Python `str` values are modelled by
Lean `String` (code-point lists), Python dicts either by typed
structures with `Option` fields for keys that are only sometimes
present, or — where heterogeneous dicts matter — by insertion-ordered
association lists.
-/

namespace GutenOCRSpec

/-! ## Python string primitives, modelled on code-point lists

Python compares `str` values lexicographically by code point; `lexLe`
is that order on the underlying character lists.  These replace the
built-in `String` order so that every definition evaluates by kernel
reduction. -/

/-- Lexicographic code-point order on character lists (Python `<=` on `str`). -/
def lexLe : List Char → List Char → Bool
  | [], _ => true
  | _ :: _, [] => false
  | a :: as, b :: bs =>
    if a.toNat < b.toNat then true
    else if b.toNat < a.toNat then false
    else lexLe as bs

/-- Python `str` order as a relation on `String`. -/
def StrLe (a b : String) : Prop := lexLe a.data b.data = true

instance : DecidableRel StrLe := fun a b =>
  inferInstanceAs (Decidable (lexLe a.data b.data = true))

/-- Python `s.upper()` (ASCII as used by the extension list). -/
def pyUpper (s : String) : String := ⟨s.data.map Char.toUpper⟩

/-- Python `s.lower()` (ASCII as used by extension comparison). -/
def pyLower (s : String) : String := ⟨s.data.map Char.toLower⟩

/-- Python `s.endswith(p)` / glob `*p` matching on a path component. -/
def pyEndsWith (s p : String) : Bool := p.data.isSuffixOf s.data

/-- Whether `pat` occurs as a contiguous substring of `s`
(Python `pat in s`). -/
def hasSub (s pat : String) : Bool := go s.data pat.data
where
  go : List Char → List Char → Bool
    | s, pat =>
      match s with
      | [] => pat.isEmpty
      | _ :: t => pat.isPrefixOf s || go t pat

/-! ## Python values for heterogeneous result dicts

`file_processor.save_results` consumes arbitrary result dicts; their
values are modelled by `PyVal` (the value kinds that actually occur in
the result records of this repository), with Python truthiness and `str()`
rendering. A dict is an insertion-ordered association list `Row`. -/

/-- A Python value as stored in a result dict. -/
inductive PyVal where
  | vstr (s : String)
  | vbool (b : Bool)
  | vnone
deriving Repr, DecidableEq

/-- Python truthiness of a `PyVal`. -/
def PyVal.truthy : PyVal → Bool
  | .vstr s => !(s == "")
  | .vbool b => b
  | .vnone => false

/-- Python `str()` of a `PyVal`. -/
def PyVal.render : PyVal → String
  | .vstr s => s
  | .vbool b => if b then "True" else "False"
  | .vnone => "None"

/-- An insertion-ordered Python dict with string keys. -/
abbrev Row := List (String × PyVal)

/-- Keys of a dict, in insertion order (`d.keys()`). -/
def rowKeys (r : Row) : List String := r.map Prod.fst

/-- Dict lookup `d.get(k)`: value of the first binding of `k`, if any. -/
def rowGet (r : Row) (k : String) : Option PyVal :=
  (r.find? (fun p => p.1 == k)).map Prod.snd

namespace GutenOCREngine

/-! ## Embedding of `src/gutenocr_engine.py`

The loaded model, processor and image loader are modelled as an
environment `ModelEnv`.  `loadImage p` stands for
`Image.open(p).convert("RGB")`; `generate p prompt n` collapses
`apply_chat_template` / `process_vision_info` / `model.generate` /
`batch_decode` into one call producing the decoded output text for the
image loaded from `p` under `prompt` with `max_new_tokens = n`.
`.error e` stands for a raised exception with message `e`. -/

/-- Environment of external effects used by `GutenOCREngine.process_image`. -/
structure ModelEnv where
  loadImage : String → Except String Unit
  generate : String → String → Nat → Except String String

/-- The static prompt lookup table of `GutenOCREngine._generate_prompt`:
`prompts.get(task_type, {}).get(output_format, ...)` returns `some`
exactly on the pairs present in the nested dict literal. -/
def promptTable (task_type output_format : String) : Option String :=
  match task_type, output_format with
  | "reading", "TEXT" =>
      some "Read all text in the image and return a single TEXT string, linearized left-to-right/top-to-bottom."
  | "reading", "TEXT2D" =>
      some "Return a layout-sensitive TEXT2D representation of the image."
  | "reading", "LINES" =>
      some "Return line-by-line OCR as LINES with bounding boxes."
  | "reading", "WORDS" =>
      some "Return word-by-word OCR as WORDS with bounding boxes."
  | "reading", "PARAGRAPHS" =>
      some "Return paragraph-wise OCR as PARAGRAPHS with bounding boxes."
  | "reading", "LATEX" =>
      some "Extract all LaTeX expressions with bounding boxes."
  | "detection", "BOX" =>
      some "Highlight all text regions in the image by returning their bounding boxes as a JSON array."
  | "localized_reading", "TEXT" =>
      some "What does it say in the specified region of the image?"
  | "conditional_detection", "BOX" =>
      some "Find and return bounding boxes for the specified text query."
  | _, _ => none

/-- The default instruction used when the pair is absent from the table. -/
def defaultPromptText : String := "Read all text in the image."

/-- Embedding of `GutenOCREngine._generate_prompt`. -/
def generate_prompt (task_type output_format : String) : String :=
  (promptTable task_type output_format).getD defaultPromptText

/-- The result dict returned by `GutenOCREngine.process_image`:
the success dict carries `success, image_path, task_type,
output_format, text, prompt`; the failure dict carries
`success, image_path, error`.  Keys absent from a branch are `none`. -/
structure OcrResult where
  success : Bool
  image_path : String
  task_type : Option String
  output_format : Option String
  text : Option String
  prompt : Option String
  error : Option String
deriving Repr, DecidableEq

/-- Embedding of `GutenOCREngine.process_image`.  The whole body is wrapped in
`try/except Exception`: a failure of the image loader or of the model
pipeline produces the failure dict; nothing propagates.  The
`custom_prompt` check is Python truthiness: `None` and `""` both fall
through to `_generate_prompt`. -/
def process_image (env : ModelEnv) (image_path task_type output_format : String)
    (max_new_tokens : Nat) (custom_prompt : Option String) : OcrResult :=
  match env.loadImage image_path with
  | .error e =>
    { success := false, image_path := image_path, task_type := none,
      output_format := none, text := none, prompt := none, error := some e }
  | .ok _ =>
    let prompt :=
      if custom_prompt.getD "" ≠ "" then custom_prompt.getD ""
      else generate_prompt task_type output_format
    match env.generate image_path prompt max_new_tokens with
    | .error e =>
      { success := false, image_path := image_path, task_type := none,
        output_format := none, text := none, prompt := none, error := some e }
    | .ok out =>
      { success := true, image_path := image_path, task_type := some task_type,
        output_format := some output_format, text := some out,
        prompt := some prompt, error := none }

/-- Embedding of `GutenOCREngine.batch_process`: one `process_image` call per input
path, in order, with no custom prompt. -/
def batch_process (env : ModelEnv) (image_paths : List String)
    (task_type output_format : String) (max_new_tokens : Nat) : List OcrResult :=
  image_paths.map (fun p => process_image env p task_type output_format max_new_tokens none)

end GutenOCREngine

namespace FileProcessor

/-! ## Embedding of `src/file_processor.py`

The file system under the input directory is modelled as the list of
path strings that `rglob`/`glob` would yield; glob pattern `*ext` on a
path component is suffix matching, which on a case-sensitive file
system matches exactly the literal-case suffix. -/

/-- The set `FileProcessor.SUPPORTED_EXTENSIONS` (a Python set; iteration
order is irrelevant because the result is sorted). -/
def SUPPORTED_EXTENSIONS : List String :=
  [".png", ".jpg", ".jpeg", ".tiff", ".tif", ".bmp", ".gif", ".webp", ".pdf"]

/-- Embedding of `FileProcessor.discover_images` over the abstract file list: for
each supported extension, the files matching glob `*ext` and glob
`*ext.upper()`, collected and then sorted with Python `sorted` (here
`List.insertionSort`, which agrees with any stable sort on `String`
keys).  The `recursive` flag only selects `rglob` versus `glob`; both
are the same suffix filter over the respective file list, so it is not
a parameter here. -/
def discover_images (files : List String) : List String :=
  List.insertionSort StrLe
    (SUPPORTED_EXTENSIONS.flatMap (fun ext =>
      files.filter (fun f => pyEndsWith f ext)
        ++ files.filter (fun f => pyEndsWith f (pyUpper ext))))

/-- The content written by `save_results`, by format. -/
inductive SavedFile where
  | json (records : List Row)
  | txt (content : String)
  | csv (rows : List (List String))
deriving Repr, DecidableEq

/-- A line of 80 equals signs. -/
def eq80 : String := ⟨List.replicate 80 '='⟩

/-- One block of the `txt` report of `save_results` (lines 96-104). -/
def txt_block (r : Row) : String :=
  eq80 ++ "\n"
    ++ "File: " ++ ((rowGet r "image_path").getD (.vstr "Unknown")).render ++ "\n"
    ++ "Status: "
    ++ (if ((rowGet r "success").getD .vnone).truthy then "Success" else "Failed") ++ "\n"
    ++ (if ((rowGet r "success").getD .vnone).truthy then
          "Text:\n" ++ ((rowGet r "text").getD (.vstr "")).render ++ "\n"
        else
          "Error: " ++ ((rowGet r "error").getD (.vstr "Unknown error")).render ++ "\n")
    ++ eq80 ++ "\n\n"

/-- One data row written by `csv.DictWriter.writerow` with
default extras action (raise) and empty-string rest value: a `ValueError` if the dict
has a key outside `fieldnames`, else one cell per fieldname, looked up
in the dict with the empty string as default. -/
def writeDictRow (fieldnames : List String) (r : Row) : Except String (List String) :=
  if r.any (fun p => !(fieldnames.contains p.1)) then
    .error "ValueError: dict contains fields not in fieldnames"
  else
    .ok (fieldnames.map (fun k => ((rowGet r k).getD (.vstr "")).render))

/-- Sequential `writerows`: writes each dict row in order, raising at
the first row whose keys are not all in `fieldnames`. -/
def writeRows (fieldnames : List String) : List Row → Except String (List (List String))
  | [] => .ok []
  | r :: rs =>
    match writeDictRow fieldnames r with
    | .error e => .error e
    | .ok cells =>
      match writeRows fieldnames rs with
      | .error e => .error e
      | .ok rows => .ok (cells :: rows)

/-- The `csv` branch of `save_results` (lines 106-113): on a non-empty
list, `DictWriter` is keyed by the keys of the first result, the
header row is written, then every result row; on an empty list the
file is created with no rows. -/
def save_results_csv (results : List Row) : Except String (List (List String)) :=
  match results with
  | [] => .ok []
  | r0 :: _ =>
    match writeRows (rowKeys r0) results with
    | .error e => .error e
    | .ok rows => .ok (rowKeys r0 :: rows)

/-- The filename stem chosen by `save_results` (`timestamp_str` stands
for `datetime.now().strftime(...)`). -/
def out_filename (timestamp : Bool) (timestamp_str : String) : String :=
  if timestamp then "ocr_results_" ++ timestamp_str else "ocr_results"

/-- Embedding of `FileProcessor.save_results`.  For the three recognized formats it
returns the written file's path and content; for any other format
string no branch assigns `output_path`, so the trailing
`logger.info(f"...{output_path}")` / `return str(output_path)` raises
`UnboundLocalError` — modelled as `.error`, with no file written. -/
def save_results (results : List Row) (fmt : String) (timestamp : Bool)
    (timestamp_str : String) : Except String (String × SavedFile) :=
  let filename := out_filename timestamp timestamp_str
  if fmt = "json" then
    .ok (filename ++ ".json", .json results)
  else if fmt = "txt" then
    .ok (filename ++ ".txt", .txt (String.join (results.map txt_block)))
  else if fmt = "csv" then
    match save_results_csv results with
    | .error e => .error e
    | .ok rows => .ok (filename ++ ".csv", .csv rows)
  else
    .error "UnboundLocalError: local variable output_path referenced before assignment"

/-- The dict returned by `FileProcessor.get_statistics`.  The two
Python `"{:.2f}"` float renderings are abstracted: the percentage
string keeps its exact guard structure with the positive branch
rendered from the exact rational, and the average is kept as the exact
rational with the same zero-successes guard as the source. -/
structure Statistics where
  total_images : Nat
  successful : Nat
  failed : Nat
  success_rate : String
  total_characters : Nat
  average_characters_per_image : ℚ
deriving Repr, DecidableEq

/-- Two-digit zero-padded rendering of a number below 100. -/
def pad2 (n : Nat) : String :=
  if n < 10 then "0" ++ toString n else toString n

/-- Two-decimal rendering of `successful/total*100` as a percent
string (stand-in for Python's `f"{...:.2f}%"`; only reached when
`total > 0`). -/
def formatPct (successful total : Nat) : String :=
  let h := (successful * 10000 + total / 2) / total
  toString (h / 100) ++ "." ++ pad2 (h % 100) ++ "%"

/-- Embedding of `FileProcessor.get_statistics` over engine results:
`successful` counts truthy `success` fields, `total_chars` sums
`len` of the `text` field (empty default) over successful results, and both divisions
are guarded (`if total > 0`, `if successful > 0`). -/
def get_statistics (results : List GutenOCREngine.OcrResult) : Statistics :=
  let total := results.length
  let successful := (results.filter (fun r => r.success)).length
  let failed := total - successful
  let total_chars :=
    ((results.filter (fun r => r.success)).map (fun r => (r.text.getD "").length)).sum
  { total_images := total
    successful := successful
    failed := failed
    success_rate := if total > 0 then formatPct successful total else "0%"
    total_characters := total_chars
    average_characters_per_image :=
      if successful > 0 then (total_chars : ℚ) / (successful : ℚ) else 0 }

end FileProcessor

namespace DoclingGutenOCRProcessor

open GutenOCREngine

/-! ## Embedding of `src/docling_gutenocr_combined.py`

The Docling converter is an external effect: `doclingConvert p` stands
for `self.docling_converter.convert(p)`, yielding on success the
document view used by `_process_with_docling` — its markdown export,
page count, and tables (each table reduced to the `str()` rendering of
its exported data and its caption string). -/

/-- One Docling table as consumed by `_process_with_docling` /
`_merge_results`: `dataStr` is `str(table.export_to_dataframe().to_dict())`,
`caption` is the `caption` attribute of the table, defaulting to the empty string. -/
structure DoclingTable where
  dataStr : String
  caption : String
deriving Repr, DecidableEq

/-- The successful view of `docling_converter.convert(...).document`. -/
structure DoclingDoc where
  markdown : String
  pages : Nat
  tables : List DoclingTable
deriving Repr, DecidableEq

/-- The dict returned by `_process_with_docling`: the success dict has
keys `text`, `structure`, `tables`, `metadata`; the failure dict has
only `error`.  Both are non-empty dicts, hence truthy. -/
inductive DoclingResult where
  | ok (text : String) (pages : Nat) (tables : List DoclingTable)
  | err (error : String)
deriving Repr, DecidableEq

/-- Lookup `docling_result.get("text", "")`: default `""` on the failure dict. -/
def doclingTextD : DoclingResult → String
  | .ok t _ _ => t
  | .err _ => ""

/-- Lookup `docling_result.get("tables")` with `None` collapsed to `[]`
(the failure dict has no `tables` key; `None` and `[]` are equally
falsy where this is used). -/
def doclingTablesD : DoclingResult → List DoclingTable
  | .ok _ _ tb => tb
  | .err _ => []

/-- Environment of external effects for the combined processor. -/
structure PipelineEnv where
  model : ModelEnv
  doclingConvert : String → Except String DoclingDoc

/-- Embedding of `DoclingGutenOCRProcessor._process_with_docling`: the whole body
is wrapped in `try/except`, so a converter failure is captured as the
`error` dict and never propagates.  Tables are collected only when
`extract_tables` is set. -/
def process_with_docling (convert : String → Except String DoclingDoc)
    (file_path : String) (extract_tables : Bool) : DoclingResult :=
  match convert file_path with
  | .error e => .err e
  | .ok doc => .ok doc.markdown doc.pages (if extract_tables then doc.tables else [])

/-- The lines appended for one table in `_merge_results`
(`idx` comes from `enumerate(..., 1)`); the caption line is emitted
only when the caption string is truthy. -/
def table_entry (idx : Nat) (t : DoclingTable) : List String :=
  ("\nTable " ++ toString idx ++ ":")
    :: (if t.caption ≠ "" then ["Caption: " ++ t.caption] else [])
    ++ [t.dataStr, "\n"]

/-- Embedding of `DoclingGutenOCRProcessor._merge_results`: three conditional
sections collected into a list and joined with `"\n"`.  The section
guards are the Python truthiness tests of the source:
`docling_result.get("text")`, `docling_result.get("tables")`, and
`gutenocr_result.get("success") and gutenocr_result.get("text")`. -/
def merge_results (d : DoclingResult) (g : OcrResult) : String :=
  let part1 : List String :=
    if doclingTextD d ≠ "" then
      ["=== DOCUMENT STRUCTURE (Docling) ===\n", doclingTextD d, "\n"]
    else []
  let part2 : List String :=
    if doclingTablesD d ≠ [] then
      "\n=== EXTRACTED TABLES ===\n"
        :: (List.enumFrom 1 (doclingTablesD d)).flatMap (fun p => table_entry p.1 p.2)
    else []
  let part3 : List String :=
    if g.success = true ∧ g.text.getD "" ≠ "" then
      ["\n=== OCR CONTENT (GutenOCR) ===\n", g.text.getD ""]
    else []
  String.intercalate "\n" (part1 ++ part2 ++ part3)

/-- The dict returned by `process_document`; the `metadata` sub-dict
is flattened into its three possible keys (`docling_processed` and
`gutenocr_processed` are present iff the corresponding stage ran, i.e.
iff the corresponding payload is `some`). -/
structure DocResult where
  file_path : String
  docling_structure : Option DoclingResult
  gutenocr_ocr : Option OcrResult
  combined_text : String
  processing_mode : Option String
  docling_processed : Bool
  gutenocr_processed : Bool
  success : Bool
  error : Option String
deriving Repr, DecidableEq

/-- Embedding of `DoclingGutenOCRProcessor.process_document`.  Step 1 runs Docling
when `use_docling ∧ extract_structure`; step 2 runs GutenOCR with
`task_type="reading"`, `output_format="TEXT2D"` when `ocr_images`;
step 3 branches on the truthiness of the two payloads (both are
non-empty dicts whenever present, even on stage failure, so truthiness
is presence).  The interim `combined_text` assignment of step 2 survives
only in the no-payload case, where it was never made, so that case is
`""`.  Both stage wrappers catch their own exceptions, so the
enclosing `try` body completes and `success` is set to `True`
unconditionally. -/
def process_document (env : PipelineEnv) (use_docling : Bool) (file_path : String)
    (extract_structure extract_tables ocr_images : Bool) : DocResult :=
  let ds : Option DoclingResult :=
    if use_docling && extract_structure then
      some (process_with_docling env.doclingConvert file_path extract_tables)
    else none
  let go : Option OcrResult :=
    if ocr_images then
      some (process_image env.model file_path "reading" "TEXT2D" 4096 none)
    else none
  let merged : String × Option String :=
    match ds, go with
    | some d, some g => (merge_results d g, some "combined")
    | some d, none => (doclingTextD d, some "docling_only")
    | none, some g => (g.text.getD "", some "gutenocr_only")
    | none, none => ("", none)
  { file_path := file_path
    docling_structure := ds
    gutenocr_ocr := go
    combined_text := merged.1
    processing_mode := merged.2
    docling_processed := ds.isSome
    gutenocr_processed := go.isSome
    success := true
    error := none }

/-- Embedding of `DoclingGutenOCRProcessor.batch_process` over an already
discovered file list: one `process_document` per file, in order (the
aggregate JSON dump of the result list is I/O and not modelled). -/
def batch_process (env : PipelineEnv) (use_docling : Bool) (files : List String)
    (extract_structure extract_tables ocr_images : Bool) : List DocResult :=
  files.map (fun p =>
    process_document env use_docling p extract_structure extract_tables ocr_images)

end DoclingGutenOCRProcessor

end GutenOCRSpec

namespace Claims

open GutenOCRSpec GutenOCRSpec.GutenOCREngine GutenOCRSpec.FileProcessor
open GutenOCRSpec.DoclingGutenOCRProcessor

/-! ## Order lemmas for the Python string order, and the claims

The totality and transitivity of `lexLe` make `StrLe` a sortable
order, which `discover_images` sortedness relies on. -/

theorem lexLe_total : ∀ as bs : List Char, lexLe as bs = true ∨ lexLe bs as = true
  | [], _ => Or.inl rfl
  | _ :: _, [] => Or.inr rfl
  | a :: as, b :: bs => by
    rcases Nat.lt_trichotomy a.toNat b.toNat with h | h | h
    · left; simp [lexLe, h]
    · have h1 : ¬ a.toNat < b.toNat := by omega
      have h2 : ¬ b.toNat < a.toNat := by omega
      simpa [lexLe, h1, h2] using lexLe_total as bs
    · right; simp [lexLe, h, Nat.lt_asymm h]

theorem lexLe_trans : ∀ as bs cs : List Char,
    lexLe as bs = true → lexLe bs cs = true → lexLe as cs = true
  | [], _, _, _, _ => rfl
  | _ :: _, [], _, h, _ => by simp [lexLe] at h
  | _ :: _, _ :: _, [], _, h => by simp [lexLe] at h
  | a :: as, b :: bs, c :: cs, h1, h2 => by
    by_cases hab : a.toNat < b.toNat <;> by_cases hbc : b.toNat < c.toNat
    · simp [lexLe, show a.toNat < c.toNat by omega]
    · have hcb : ¬ c.toNat < b.toNat := by
        intro hcb
        simp [lexLe, hcb, show ¬ b.toNat < c.toNat by omega] at h2
      simp [lexLe, show a.toNat < c.toNat by omega]
    · have hba : ¬ b.toNat < a.toNat := by
        intro hba
        simp [lexLe, hba, hab] at h1
      simp [lexLe, show a.toNat < c.toNat by omega]
    · have hba : ¬ b.toNat < a.toNat := by
        intro hba
        simp [lexLe, hba, hab] at h1
      have hcb : ¬ c.toNat < b.toNat := by
        intro hcb
        simp [lexLe, hcb, hbc] at h2
      have hac : ¬ a.toNat < c.toNat := by omega
      have hca : ¬ c.toNat < a.toNat := by omega
      simp only [lexLe, hab, hba, if_false] at h1
      simp only [lexLe, hbc, hcb, if_false] at h2
      simpa [lexLe, hac, hca] using lexLe_trans as bs cs h1 h2

instance : IsTotal String StrLe := ⟨fun a b => lexLe_total a.data b.data⟩

instance : IsTrans String StrLe := ⟨fun a b c => lexLe_trans a.data b.data c.data⟩


/-- C3: for every input `(path, task_type, output_format,
max_new_tokens, custom_prompt)` and every behaviour of the image
loader and model, `process_image` returns a result (never a raised
fault): on any error it is a result with `success = false` and a
string error message, and on success it is `success = true` carrying
the decoded text produced by the model. -/
theorem c3_process_image_boundary (env : ModelEnv) (p tt fmt : String)
    (mnt : Nat) (cp : Option String) :
    ((process_image env p tt fmt mnt cp).success = true ∧
      (process_image env p tt fmt mnt cp).error = none ∧
      ∃ t, (process_image env p tt fmt mnt cp).text = some t ∧
        env.generate p
          (if cp.getD "" ≠ "" then cp.getD "" else generate_prompt tt fmt) mnt = .ok t)
    ∨ ((process_image env p tt fmt mnt cp).success = false ∧
        ∃ e, (process_image env p tt fmt mnt cp).error = some e) := by
  simp only [process_image]
  split
  · right
    exact ⟨rfl, _, rfl⟩
  · split
    · right
      exact ⟨rfl, _, rfl⟩
    · rename_i t h2
      left
      exact ⟨rfl, rfl, t, rfl, h2⟩

/-- C4: prompt resolution is a total function: whenever the
`(task_type, output_format)` pair is present in the static lookup
table its fixed instruction string is returned, and for every pair not
in the table the default instruction is returned. -/
theorem c4_prompt_lookup_total (tt fmt : String) :
    (∀ p, promptTable tt fmt = some p → generate_prompt tt fmt = p) ∧
    (promptTable tt fmt = none → generate_prompt tt fmt = defaultPromptText) := by
  constructor
  · intro p hp
    simp [generate_prompt, hp]
  · intro hn
    simp [generate_prompt, hn]

/-- Witness for C4: the `("reading", "TEXT")` pair resolves to its
table entry, and the unknown `("reading", "BOGUS")` pair resolves to
the default instruction. -/
theorem c4_prompt_lookup_total_witness :
    generate_prompt "reading" "TEXT" =
      "Read all text in the image and return a single TEXT string, linearized left-to-right/top-to-bottom." ∧
    generate_prompt "reading" "BOGUS" = defaultPromptText :=
  ⟨(c4_prompt_lookup_total "reading" "TEXT").1 _ rfl,
   (c4_prompt_lookup_total "reading" "BOGUS").2 rfl⟩

/-- C9: for every result list, `save_results` with a format string
other than "json", "txt" and "csv" runs no writing branch and raises
(the `output_path` local is never bound before the trailing use), so
it errors instead of returning a saved-file path. -/
theorem c9_save_results_unknown_format (results : List Row) (fmt : String)
    (ts : Bool) (tss : String)
    (h1 : fmt ≠ "json") (h2 : fmt ≠ "txt") (h3 : fmt ≠ "csv") :
    save_results results fmt ts tss =
      .error "UnboundLocalError: local variable output_path referenced before assignment" := by
  simp [save_results, h1, h2, h3]

/-- Witness for C9: saving with format "xml" errors. -/
theorem c9_save_results_unknown_format_witness :
    save_results [] "xml" true "20250101_000000" =
      .error "UnboundLocalError: local variable output_path referenced before assignment" :=
  c9_save_results_unknown_format [] "xml" true "20250101_000000"
    (by decide) (by decide) (by decide)

/-- C10: `GutenOCREngine.batch_process` returns one result per input
path, in order: the list has the same length as the input, its `i`-th
element is `process_image` applied to the `i`-th path, and that
element's `image_path` field equals the `i`-th input path in the
success case and in the failure case alike. -/
theorem c10_batch_preserves_order (env : ModelEnv) (paths : List String)
    (tt fmt : String) (mnt : Nat) :
    (GutenOCREngine.batch_process env paths tt fmt mnt).length = paths.length ∧
    ∀ (i : Nat) (p : String), paths[i]? = some p →
      (GutenOCREngine.batch_process env paths tt fmt mnt)[i]? =
        some (process_image env p tt fmt mnt none) ∧
      ((GutenOCREngine.batch_process env paths tt fmt mnt)[i]?).map
          OcrResult.image_path = some p := by
  refine ⟨by simp [GutenOCREngine.batch_process], ?_⟩
  intro i p hp
  have himg : ∀ q tt fmt mnt cp, (process_image env q tt fmt mnt cp).image_path = q := by
    intro q tt fmt mnt cp
    simp only [process_image]
    split
    · rfl
    · split <;> rfl
  constructor
  · simp [GutenOCREngine.batch_process, List.getElem?_map, hp]
  · simp [GutenOCREngine.batch_process, List.getElem?_map, hp, himg]

/-- Witness for C10: a two-path batch under a concrete environment
keeps length, order and the `image_path` association. -/
theorem c10_batch_preserves_order_witness :
    (GutenOCREngine.batch_process
        ⟨fun _ => .ok (), fun _ _ _ => .ok "hello"⟩
        ["a.png", "b.png"] "reading" "TEXT" 4096).length = 2 ∧
    (GutenOCREngine.batch_process
        ⟨fun _ => .ok (), fun _ _ _ => .ok "hello"⟩
        ["a.png", "b.png"] "reading" "TEXT" 4096)[1]? =
      some (process_image ⟨fun _ => .ok (), fun _ _ _ => .ok "hello"⟩
        "b.png" "reading" "TEXT" 4096 none) := by
  have h := c10_batch_preserves_order
    ⟨fun _ => .ok (), fun _ _ _ => .ok "hello"⟩ ["a.png", "b.png"] "reading" "TEXT" 4096
  exact ⟨h.1, (h.2 1 "b.png" (by decide)).1⟩


/-- C6: `get_statistics` guards its division by the success count:
whenever no result succeeded the average is `0` rather than a division
error, and on the empty result list `success_rate` is the string "0%"
and the average is `0`. -/
theorem c6_statistics_zero_guard (results : List GutenOCREngine.OcrResult)
    (h : (results.filter (fun r => r.success)).length = 0) :
    (get_statistics results).average_characters_per_image = 0 ∧
    (get_statistics []).success_rate = "0%" ∧
    (get_statistics []).average_characters_per_image = 0 := by
  refine ⟨?_, rfl, rfl⟩
  simp [get_statistics, h]

/-- Witness for C6: statistics over a single failed result have a zero
average, and the empty list reports "0%". -/
theorem c6_statistics_zero_guard_witness :
    (get_statistics [⟨false, "a.png", none, none, none, none, some "boom"⟩]).average_characters_per_image = 0 ∧
    (get_statistics []).success_rate = "0%" ∧
    (get_statistics []).average_characters_per_image = 0 :=
  c6_statistics_zero_guard [⟨false, "a.png", none, none, none, none, some "boom"⟩] (by decide)

/-- C8: the two stages of `process_document` are isolated.  Whenever
`ocr_images` is enabled the OCR payload is exactly the result of the
`process_image` call — for every behaviour of the Docling converter,
including failure — and when the converter raises, the error is
captured in the `docling_structure` payload rather than propagated. -/
theorem c8_stage_isolation (env : PipelineEnv) (u : Bool) (fp : String)
    (es et oi : Bool) :
    (oi = true →
      (process_document env u fp es et oi).gutenocr_ocr =
        some (process_image env.model fp "reading" "TEXT2D" 4096 none)) ∧
    (∀ e, u = true → es = true → env.doclingConvert fp = .error e →
      (process_document env u fp es et oi).docling_structure =
        some (DoclingResult.err e)) := by
  constructor
  · intro hoi
    simp [process_document, hoi]
  · intro e hu hes hd
    simp [process_document, hu, hes, process_with_docling, hd]

/-- Witness for C8: under an environment whose Docling converter
raises, the OCR payload is still the `process_image` result and the
converter error is captured in the structure payload. -/
theorem c8_stage_isolation_witness :
    (process_document ⟨⟨fun _ => Except.ok (), fun _ _ _ => Except.ok "text"⟩,
        fun _ => Except.error "docling crashed"⟩ true "d.pdf" true true true).gutenocr_ocr =
      some (process_image ⟨fun _ => Except.ok (), fun _ _ _ => Except.ok "text"⟩
        "d.pdf" "reading" "TEXT2D" 4096 none) ∧
    (process_document ⟨⟨fun _ => Except.ok (), fun _ _ _ => Except.ok "text"⟩,
        fun _ => Except.error "docling crashed"⟩ true "d.pdf" true true true).docling_structure =
      some (DoclingResult.err "docling crashed") :=
  ⟨(c8_stage_isolation ⟨⟨fun _ => Except.ok (), fun _ _ _ => Except.ok "text"⟩,
      fun _ => Except.error "docling crashed"⟩ true "d.pdf" true true true).1 rfl,
   (c8_stage_isolation ⟨⟨fun _ => Except.ok (), fun _ _ _ => Except.ok "text"⟩,
      fun _ => Except.error "docling crashed"⟩ true "d.pdf" true true true).2
     "docling crashed" rfl rfl rfl⟩


/-- Helper: `writeRows` succeeds when every row writes successfully,
and then produces one output row per input row. -/
theorem writeRows_ok_of_forall_ok (fns : List String) :
    ∀ l : List Row, (∀ r ∈ l, ∃ cells, writeDictRow fns r = .ok cells) →
      ∃ rows, writeRows fns l = .ok rows
  | [], _ => ⟨[], rfl⟩
  | r :: l, h => by
    obtain ⟨cells, hc⟩ := h r (List.mem_cons_self r l)
    obtain ⟨rows, hrows⟩ :=
      writeRows_ok_of_forall_ok fns l (fun x hx => h x (List.mem_cons_of_mem r hx))
    exact ⟨cells :: rows, by simp [writeRows, hc, hrows]⟩

/-- C7: for every non-empty result list whose dicts share one key set,
`save_results` in the "csv" format succeeds and the header row of the
written file is exactly the field list of the first result, so the
saved field set round-trips; all columns are keyed by the keys of the
first result. -/
theorem c7_csv_header_roundtrip (r0 : Row) (rest : List Row) (ts : Bool) (tss : String)
    (hom : ∀ r ∈ r0 :: rest, ∀ k, k ∈ rowKeys r ↔ k ∈ rowKeys r0) :
    ∃ rows, save_results (r0 :: rest) "csv" ts tss =
      .ok (out_filename ts tss ++ ".csv", SavedFile.csv (rowKeys r0 :: rows)) := by
  have hok : ∀ r ∈ r0 :: rest, ∃ cells, writeDictRow (rowKeys r0) r = .ok cells := by
    intro r hr
    have hany : r.any (fun q => !((rowKeys r0).contains q.1)) = false := by
      rw [List.any_eq_false]
      intro q hq
      have hk : q.1 ∈ rowKeys r := List.mem_map_of_mem Prod.fst hq
      have hk0 : q.1 ∈ rowKeys r0 := (hom r hr q.1).1 hk
      simpa using hk0
    exact ⟨(rowKeys r0).map (fun k => ((rowGet r k).getD (PyVal.vstr "")).render),
      by simp only [writeDictRow, hany]; rfl⟩
  obtain ⟨rows, hrows⟩ :=
    writeRows_ok_of_forall_ok (rowKeys r0) (r0 :: rest) hok
  exact ⟨rows, by simp [save_results, save_results_csv, hrows]⟩

/-- Witness for C7: a two-row homogeneous result list saved as CSV has
the first row of keys as header. -/
theorem c7_csv_header_roundtrip_witness :
    ∃ rows, save_results
        [[("image_path", PyVal.vstr "a.png"), ("success", PyVal.vbool true)],
         [("image_path", PyVal.vstr "b.png"), ("success", PyVal.vbool false)]]
        "csv" false "20250101_000000" =
      .ok (out_filename false "20250101_000000" ++ ".csv",
        SavedFile.csv
          (rowKeys [("image_path", PyVal.vstr "a.png"), ("success", PyVal.vbool true)] :: rows)) :=
  c7_csv_header_roundtrip
    [("image_path", PyVal.vstr "a.png"), ("success", PyVal.vbool true)]
    [[("image_path", PyVal.vstr "b.png"), ("success", PyVal.vbool false)]]
    false "20250101_000000"
    (by
      intro r hr k
      simp only [List.mem_cons, List.not_mem_nil, or_false] at hr
      rcases hr with rfl | rfl <;> exact Iff.rfl)


/-- Counterexample to C5: the file "a.Png" has extension ".Png",
which matches the allow-list case-insensitively (its lower-casing is
".png"), yet `discover_images` excludes it — the globs match only the
all-lowercase and all-uppercase spellings of each extension, so not
"every file with a matching extension in any letter-case" is
included. -/
theorem c5_counterexample :
    discover_images ["a.Png"] = [] ∧
    pyEndsWith (pyLower "a.Png") ".png" = true ∧
    ".png" ∈ FileProcessor.SUPPORTED_EXTENSIONS := by decide

/-- C5 as amended: `discover_images` returns exactly the files whose
name ends with a supported extension in its all-lowercase or
all-uppercase spelling (mixed-case extensions are excluded), and the
returned list is sorted in the lexicographic code-point order used by
Python `sorted`, hence deterministic on a given file set. -/
theorem c5_discover_images_amended (files : List String) :
    (∀ x, x ∈ discover_images files ↔
      x ∈ files ∧ ∃ ext ∈ FileProcessor.SUPPORTED_EXTENSIONS,
        (pyEndsWith x ext = true ∨ pyEndsWith x (pyUpper ext) = true)) ∧
    (discover_images files).Sorted StrLe := by
  constructor
  · intro x
    simp only [discover_images, List.mem_insertionSort, List.mem_flatMap,
      List.mem_append, List.mem_filter]
    constructor
    · rintro ⟨ext, hext, ⟨hx, he⟩ | ⟨hx, he⟩⟩
      · exact ⟨hx, ext, hext, Or.inl he⟩
      · exact ⟨hx, ext, hext, Or.inr he⟩
    · rintro ⟨hx, ext, hext, he | he⟩
      · exact ⟨ext, hext, Or.inl ⟨hx, he⟩⟩
      · exact ⟨ext, hext, Or.inr ⟨hx, he⟩⟩
  · exact List.sorted_insertionSort StrLe _


/-- Helper: `combined_text` and `processing_mode` of a processed
document are determined by which of the two stage payloads are
present, following the four-way branch of step 3 of
`process_document`. -/
theorem process_document_shape (env : PipelineEnv) (u : Bool) (fp : String)
    (es et oi : Bool) :
    (process_document env u fp es et oi).combined_text =
      (match (process_document env u fp es et oi).docling_structure,
             (process_document env u fp es et oi).gutenocr_ocr with
       | some d, some g => merge_results d g
       | some d, none => doclingTextD d
       | none, some g => g.text.getD ""
       | none, none => "") ∧
    (process_document env u fp es et oi).processing_mode =
      (match (process_document env u fp es et oi).docling_structure,
             (process_document env u fp es et oi).gutenocr_ocr with
       | some _, some _ => some "combined"
       | some _, none => some "docling_only"
       | none, some _ => some "gutenocr_only"
       | none, none => (none : Option String)) := by
  cases h1 : (u && es) <;> cases h2 : oi <;> simp [process_document, h1, h2]

/-- Counterexample to C1: a document for which both stages produce
output (Docling yields non-empty structure text, OCR succeeds with
non-empty text) but whose table list is empty.  The merged
`combined_text` does not carry the "EXTRACTED TABLES" banner, so the
merged text is not "the concatenation carrying the three banners". -/
theorem c1_counterexample :
    (process_document ⟨⟨fun _ => Except.ok (), fun _ _ _ => Except.ok "B"⟩,
        fun _ => Except.ok ⟨"A", 1, []⟩⟩ true "d.pdf" true true true).docling_structure =
      some (DoclingResult.ok "A" 1 []) ∧
    (process_document ⟨⟨fun _ => Except.ok (), fun _ _ _ => Except.ok "B"⟩,
        fun _ => Except.ok ⟨"A", 1, []⟩⟩ true "d.pdf" true true true).gutenocr_ocr =
      some ⟨true, "d.pdf", some "reading", some "TEXT2D", some "B",
        some "Return a layout-sensitive TEXT2D representation of the image.", none⟩ ∧
    hasSub (process_document ⟨⟨fun _ => Except.ok (), fun _ _ _ => Except.ok "B"⟩,
        fun _ => Except.ok ⟨"A", 1, []⟩⟩ true "d.pdf" true true true).combined_text
      "=== EXTRACTED TABLES ===" = false := by decide

/-- C1 as amended: when both payloads are present, `combined_text` is
the newline-join of three conditional sections — the DOCUMENT
STRUCTURE section when the structure text is non-empty, the EXTRACTED
TABLES section when the table list is non-empty, and the OCR CONTENT
section when OCR succeeded with non-empty text — concatenated in that
fixed order, and `processing_mode` is "combined"; when only the
structure payload is present `combined_text` is the structure text
verbatim with mode "docling_only"; when only the OCR payload is
present it is the OCR text verbatim with mode "gutenocr_only". -/
theorem c1_merge_policy_amended (env : PipelineEnv) (u : Bool) (fp : String)
    (es et oi : Bool) :
    (∀ d g,
      (process_document env u fp es et oi).docling_structure = some d →
      (process_document env u fp es et oi).gutenocr_ocr = some g →
      (process_document env u fp es et oi).processing_mode = some "combined" ∧
      (process_document env u fp es et oi).combined_text =
        String.intercalate "\n"
          ((if doclingTextD d ≠ "" then
              ["=== DOCUMENT STRUCTURE (Docling) ===\n", doclingTextD d, "\n"]
            else [])
            ++ (if doclingTablesD d ≠ [] then
                  "\n=== EXTRACTED TABLES ===\n"
                    :: (List.enumFrom 1 (doclingTablesD d)).flatMap
                        (fun q => table_entry q.1 q.2)
                else [])
            ++ (if g.success = true ∧ g.text.getD "" ≠ "" then
                  ["\n=== OCR CONTENT (GutenOCR) ===\n", g.text.getD ""]
                else []))) ∧
    (∀ d,
      (process_document env u fp es et oi).docling_structure = some d →
      (process_document env u fp es et oi).gutenocr_ocr = none →
      (process_document env u fp es et oi).processing_mode = some "docling_only" ∧
      (process_document env u fp es et oi).combined_text = doclingTextD d) ∧
    (∀ g,
      (process_document env u fp es et oi).docling_structure = none →
      (process_document env u fp es et oi).gutenocr_ocr = some g →
      (process_document env u fp es et oi).processing_mode = some "gutenocr_only" ∧
      (process_document env u fp es et oi).combined_text = g.text.getD "") := by
  refine ⟨fun d g hd hg => ?_, fun d hd hg => ?_, fun g hd hg => ?_⟩ <;>
    obtain ⟨hct, hpm⟩ := process_document_shape env u fp es et oi <;>
    rw [hd, hg] at hct hpm <;> exact ⟨hpm, hct⟩

/-- Witness for C1: under a concrete environment with structure text,
one table and successful OCR, `process_document` reports the
"combined" mode. -/
theorem c1_merge_policy_amended_witness :
    (process_document ⟨⟨fun _ => Except.ok (), fun _ _ _ => Except.ok "B"⟩,
        fun _ => Except.ok ⟨"A", 1, [⟨"DATA", "CAP"⟩]⟩⟩
      true "d.pdf" true true true).processing_mode = some "combined" :=
  ((c1_merge_policy_amended ⟨⟨fun _ => Except.ok (), fun _ _ _ => Except.ok "B"⟩,
        fun _ => Except.ok ⟨"A", 1, [⟨"DATA", "CAP"⟩]⟩⟩ true "d.pdf" true true true).1
    (DoclingResult.ok "A" 1 [⟨"DATA", "CAP"⟩])
    ⟨true, "d.pdf", some "reading", some "TEXT2D", some "B",
      some "Return a layout-sensitive TEXT2D representation of the image.", none⟩
    (by decide) (by decide)).1

/-- Counterexample to C2: under a model that raises on every generate
call, the per-file result of `process_document` records the failure
only inside the `gutenocr_ocr` payload — the top-level `success` field
is `true`, not `false` as the claim states. -/
theorem c2_counterexample :
    (process_document ⟨⟨fun _ => Except.ok (), fun _ _ _ => Except.error "model failure"⟩,
        fun _ => Except.error "unused"⟩ false "a.png" true true true).success = true ∧
    (process_document ⟨⟨fun _ => Except.ok (), fun _ _ _ => Except.error "model failure"⟩,
        fun _ => Except.error "unused"⟩ false "a.png" true true true).gutenocr_ocr =
      some ⟨false, "a.png", none, none, none, none, some "model failure"⟩ := by decide

/-- C2 as amended: when the model fails on a file, the failure is
recorded in that file result OCR payload — `success = false` with the
exception message as error string — while `process_document` itself
still returns `success = true`; and the batch loop is unaffected: it
returns one result per discovered file, the `i`-th being
`process_document` of the `i`-th file. -/
theorem c2_batch_failure_amended (env : PipelineEnv) (u : Bool) (files : List String)
    (es et : Bool) (i : Nat) (p : String) (e : String)
    (hp : files[i]? = some p)
    (hload : env.model.loadImage p = .ok ())
    (hgen : ∀ pr n, env.model.generate p pr n = .error e) :
    (DoclingGutenOCRProcessor.batch_process env u files es et true).length = files.length ∧
    (DoclingGutenOCRProcessor.batch_process env u files es et true)[i]? =
      some (process_document env u p es et true) ∧
    (process_document env u p es et true).gutenocr_ocr =
      some ⟨false, p, none, none, none, none, some e⟩ ∧
    (process_document env u p es et true).success = true := by
  refine ⟨by simp [DoclingGutenOCRProcessor.batch_process], ?_, ?_, rfl⟩
  · simp [DoclingGutenOCRProcessor.batch_process, List.getElem?_map, hp]
  · simp [process_document, process_image, hload, hgen]

/-- Witness for C2: a two-file batch under an always-failing model
yields two results; the first records the model error in its OCR
payload and still carries a top-level `success = true`. -/
theorem c2_batch_failure_amended_witness :
    (DoclingGutenOCRProcessor.batch_process
        ⟨⟨fun _ => Except.ok (), fun _ _ _ => Except.error "model failure"⟩,
          fun _ => Except.error "unused"⟩ false ["a.png", "b.png"] true true true).length = 2 ∧
    (process_document ⟨⟨fun _ => Except.ok (), fun _ _ _ => Except.error "model failure"⟩,
        fun _ => Except.error "unused"⟩ false "a.png" true true true).gutenocr_ocr =
      some ⟨false, "a.png", none, none, none, none, some "model failure"⟩ := by
  have h := c2_batch_failure_amended
    ⟨⟨fun _ => Except.ok (), fun _ _ _ => Except.error "model failure"⟩,
      fun _ => Except.error "unused"⟩ false ["a.png", "b.png"] true true
    0 "a.png" "model failure" (by decide) rfl (fun pr n => rfl)
  exact ⟨h.1, h.2.2.1⟩

end Claims
